import Mathlib

/-!
Shallow embedding of the go-diameter connection and dispatch layer:
the wire header codec (`diam/header.go`), the server connection loop,
the command multiplexer and its error mailbox (`diam/server.go`).

Machine integers are modelled as `Nat` with explicit `% 2^w` where Go
would overflow; `io.Reader` inputs are byte lists; fallible calls return
`Except`; panics and channel sends are made explicit state.
-/

namespace Diam

/-! ## Wire header (`diam/header.go`)

`Header` mirrors the Go struct field for field: the 24-bit message
length and command code are kept as the raw 3-byte groups the struct
stores (`[3]uint8`), each byte a `Nat`. -/

structure Header where
  version : Nat
  rawMessageLength : Nat × Nat × Nat
  commandFlags : Nat
  rawCommandCode : Nat × Nat × Nat
  applicationId : Nat
  hopByHopId : Nat
  endToEndId : Nat
  deriving Repr, DecidableEq

/-- Modelled from the spec: helper `uint24To32` is used by `header.go` but
defined in a utility file not present here; the spec fixes the format as
24-bit unsigned big-endian, so the three raw bytes recombine most
significant first. -/
def uint24To32 (b : Nat × Nat × Nat) : Nat :=
  (b.1 * 256 + b.2.1) * 256 + b.2.2

/-- Modelled from the spec: helper `uint32To24` (same missing utility
file); packs a 32-bit value into three big-endian bytes, dropping the
high byte. -/
def uint32To24 (n : Nat) : Nat × Nat × Nat :=
  (n / 65536 % 256, n / 256 % 256, n % 256)

/-- `unsafe.Sizeof(Header{})`: fields occupy offsets 0,1,4,5,8,12,16 with
4-byte alignment and no padding, so the in-memory size coincides with the
20-byte wire size. -/
def headerSizeof : Nat := 20

/-- `MessageLength` returns `RawMessageLength` as an integer. -/
def Header.messageLength (hdr : Header) : Nat :=
  uint24To32 hdr.rawMessageLength

/-- `SetMessageLength` stores `uint32To24(uint32(unsafe.Sizeof(Header{})) + length)`;
the `uint32` addition wraps at `2^32`. -/
def Header.setMessageLength (hdr : Header) (length : Nat) : Header :=
  { hdr with rawMessageLength := uint32To24 ((headerSizeof + length) % 2 ^ 32) }

/-- `CommandCode` returns `RawCommandCode` as an integer. -/
def Header.commandCode (hdr : Header) : Nat :=
  uint24To32 hdr.rawCommandCode

structure Command where
  name : String
  abbr : String
  deriving Repr, DecidableEq

/-- The static command-code table of `header.go`. -/
def commandCodes : List (Nat × Command) :=
  [ (274, ⟨"Abbort-Session", "AS"⟩),
    (271, ⟨"Accounting", "AC"⟩),
    (257, ⟨"Capabilities-Exchange", "CE"⟩),
    (280, ⟨"Device-Watchdog", "DW"⟩),
    (282, ⟨"Disconnect-Peer", "DP"⟩),
    (258, ⟨"Re-Auth", "RA"⟩),
    (275, ⟨"Session-Termination", "ST"⟩) ]

/-- `CommandName`: pick the Request/Answer suffixes from flag bit 7, look
the code up in the static table; on a miss return the flag-independent
sentinel. -/
def Header.commandName (hdr : Header) : Command :=
  let nameSuffix := if hdr.commandFlags &&& 128 > 0 then "-Request" else "-Answer"
  let abbrevSuffix := if hdr.commandFlags &&& 128 > 0 then "R" else "A"
  match commandCodes.lookup hdr.commandCode with
  | some cmd => ⟨cmd.name ++ nameSuffix, cmd.abbr ++ abbrevSuffix⟩
  | none => ⟨"Unknown", "?"⟩

/-- Errors `ReadHeader` can return: `binary.Read` failures (short or
absent reads) versus the explicit version check. -/
inductive ReadErr where
  | ioError
  | versionError (v : Nat)
  deriving Repr, DecidableEq

def ReadErr.isVersion : ReadErr → Bool
  | .ioError => false
  | .versionError _ => true

/-- `ReadHeader`: `binary.Read` consumes exactly 20 big-endian bytes into
the struct (failing on a short stream), then the version byte is checked
against 1. -/
def readHeader (s : List Nat) : Except ReadErr Header :=
  match s with
  | b0 :: b1 :: b2 :: b3 :: b4 :: b5 :: b6 :: b7 :: b8 :: b9 :: b10 :: b11 ::
    b12 :: b13 :: b14 :: b15 :: b16 :: b17 :: b18 :: b19 :: _ =>
    let hdr : Header :=
      { version := b0
        rawMessageLength := (b1, b2, b3)
        commandFlags := b4
        rawCommandCode := (b5, b6, b7)
        applicationId := ((b8 * 256 + b9) * 256 + b10) * 256 + b11
        hopByHopId := ((b12 * 256 + b13) * 256 + b14) * 256 + b15
        endToEndId := ((b16 * 256 + b17) * 256 + b18) * 256 + b19 }
    if hdr.version ≠ 1 then .error (.versionError hdr.version) else .ok hdr
  | _ => .error .ioError

/-- Big-endian bytes of a 32-bit value. -/
def byte32 (n : Nat) : List Nat :=
  [n / 2 ^ 24 % 256, n / 2 ^ 16 % 256, n / 2 ^ 8 % 256, n % 256]

/-- Modelled from the spec: `Encode(Header, payloadLength) -> bytes` is
not among the present files; the spec fixes the wire form as the 20-byte
big-endian layout of §6 (version, 3 length bytes, flags, 3 code bytes,
three 32-bit ids), which is also what `binary.Write` of the struct
produces. -/
def encodeHeader (h : Header) : List Nat :=
  [h.version,
   h.rawMessageLength.1, h.rawMessageLength.2.1, h.rawMessageLength.2.2,
   h.commandFlags,
   h.rawCommandCode.1, h.rawCommandCode.2.1, h.rawCommandCode.2.2]
  ++ byte32 h.applicationId ++ byte32 h.hopByHopId ++ byte32 h.endToEndId

/-! ## Server connection loop and multiplexer (`diam/server.go`)

Connections are identified by a `Nat`; handlers are opaque and likewise
identified by a `Nat` — dispatch records which handler ran rather than
running arbitrary code. Go `error` values that the server layer
distinguishes are made constructors. -/

/-- The Go `error` values this layer branches on: `io.EOF`,
`io.ErrUnexpectedEOF`, `errors.New(s)` values, and everything else. -/
inductive GoError where
  | eof
  | unexpectedEOF
  | errNew (s : String)
  | other (n : Nat)
  deriving Repr, DecidableEq

/-- Modelled from the spec: `RequestFlag` is referenced by `ServeDIAM`
but declared in a file not present here; the spec fixes flag bit 7 as the
Request bit, i.e. mask `0x80`. -/
def RequestFlag : Nat := 128

/-- The message-header fields the dispatcher reads (the external message
codec's header, distinct from the wire `Header` above). -/
structure MsgHeader where
  applicationID : Nat
  commandCode : Nat
  commandFlags : Nat
  deriving Repr, DecidableEq

/-- A decoded message: its header plus an opaque body tag; the dictionary
it carries is passed to the dispatcher separately so the structure stays
decidably comparable. -/
structure Message where
  header : MsgHeader
  body : Nat
  deriving Repr, DecidableEq

/-- `ErrorReport{Conn, Message, Error}`. -/
structure ErrorReport where
  conn : Nat
  message : Option Message
  error : GoError
  deriving Repr, DecidableEq

/-- A `muxEntry` pairs the handler with the command key it was
registered under. -/
structure MuxEntry where
  h : Nat
  cmd : String
  deriving Repr, DecidableEq

/-- `ServeMux` state: the entry table (first binding wins on lookup, so
registration prepends) and the one-slot error channel
(`make(chan ErrorReport, 1)`), empty when `none`. -/
structure ServeMux where
  m : List (String × MuxEntry)
  e : Option ErrorReport
  deriving Repr, DecidableEq

/-- `NewServeMux`: empty table, empty one-slot channel. -/
def NewServeMux : ServeMux :=
  { m := [], e := none }

/-- `ServeMux.Error`: non-blocking send on the capacity-1 channel — the
report lands in the slot when it is free and is dropped otherwise. -/
def ServeMux.sendError (slot : Option ErrorReport) (r : ErrorReport) : Option ErrorReport :=
  match slot with
  | none => some r
  | some r0 => some r0

/-- What one dispatch did: the handlers invoked (in order), the reports
handed to `ServeMux.Error` (in order), and the channel slot afterwards. -/
structure DispatchResult where
  invoked : List Nat
  submitted : List ErrorReport
  slot : Option ErrorReport
  deriving Repr, DecidableEq

/-- `ServeMux.serve`: look the key up in the entry table; on a hit invoke
the handler, on a miss submit an "unhandled message" report. -/
def ServeMux.serve (mux : ServeMux) (cmd : String) (c : Nat) (m : Message) : DispatchResult :=
  match mux.m.lookup cmd with
  | some entry => { invoked := [entry.h], submitted := [], slot := mux.e }
  | none =>
    let r : ErrorReport := { conn := c, message := some m, error := .errNew "unhandled message" }
    { invoked := [], submitted := [r], slot := ServeMux.sendError mux.e r }

/-- `ServeMux.ServeDIAM`: resolve `(ApplicationID, CommandCode)` through
the message's dictionary (`dict appId code = none` models a
`FindCommand` error); on failure try the catch-all key, on success build
`Short ++ "R"` or `Short ++ "A"` from the Request flag. -/
def ServeMux.serveDIAM (mux : ServeMux) (dict : Nat → Nat → Option String)
    (c : Nat) (m : Message) : DispatchResult :=
  match dict m.header.applicationID m.header.commandCode with
  | none => mux.serve "ALL" c m
  | some short =>
    let cmd := if m.header.commandFlags &&& RequestFlag = RequestFlag
      then short ++ "R" else short ++ "A"
    mux.serve cmd c m

/-- The key `ServeDIAM` ends up looking up for a given dictionary and
message. -/
def resolvedKey (dict : Nat → Nat → Option String) (m : Message) : String :=
  match dict m.header.applicationID m.header.commandCode with
  | none => "ALL"
  | some short =>
    if m.header.commandFlags &&& RequestFlag = RequestFlag
      then short ++ "R" else short ++ "A"

/-- `ServeMux.Handle`: a nil handler panics before the table is touched;
otherwise the entry is stored under `cmd` (replacing any previous
binding). The returned `Option String` is the panic message, `none` when
the call returns normally. -/
def ServeMux.handle (mux : ServeMux) (cmd : String) (handler : Option Nat) :
    ServeMux × Option String :=
  match handler with
  | none => (mux, some "DIAM: nil handler")
  | some h => ({ mux with m := (cmd, ⟨h, cmd⟩) :: mux.m }, none)

/-- What one iteration of `conn.serve`'s loop body does, as a function of
the `readMessage` outcome: on success the message is dispatched and the
loop continues; on failure the socket is closed, the loop breaks, and —
unless the error is `io.EOF` or `io.ErrUnexpectedEOF` — a report naming
this connection, a nil message, and the error is handed to the handler's
`Error` method when the handler is an `ErrorReporter`. -/
structure ServeStep where
  socketClosed : Bool
  loopExits : Bool
  dispatched : List Message
  reports : List ErrorReport
  deriving Repr, DecidableEq

def connServeStep (outcome : Except GoError Message) (reporter : Bool)
    (cid : Nat) : ServeStep :=
  match outcome with
  | .ok m => { socketClosed := false, loopExits := false, dispatched := [m], reports := [] }
  | .error e =>
    { socketClosed := true
      loopExits := true
      dispatched := []
      reports :=
        if e ≠ .eof ∧ e ≠ .unexpectedEOF ∧ reporter = true
          then [{ conn := cid, message := none, error := e }] else [] }

/-- `response.Write`: the buffered write's result and the flush's result
determine the returned pair — any error short-circuits to a zero count. -/
def responseWrite (writeRes : Nat × Option GoError) (flushRes : Option GoError) :
    Nat × Option GoError :=
  match writeRes with
  | (_, some e) => (0, some e)
  | (n, none) =>
    match flushRes with
    | some e => (0, some e)
    | none => (n, none)

/-! ## Helper lemmas -/

/-- Any byte stream either is too short for a header or starts with 20
bytes. -/
lemma readHeader_cases (s : List Nat) :
    (s.length < 20 ∧ readHeader s = .error .ioError) ∨
    (∃ b0 b1 b2 b3 b4 b5 b6 b7 b8 b9 b10 b11 b12 b13 b14 b15 b16 b17 b18 b19 rest,
      s = b0 :: b1 :: b2 :: b3 :: b4 :: b5 :: b6 :: b7 :: b8 :: b9 :: b10 :: b11 ::
        b12 :: b13 :: b14 :: b15 :: b16 :: b17 :: b18 :: b19 :: rest) := by
  rcases s with _ | ⟨b0, s⟩; · exact Or.inl ⟨by simp, rfl⟩
  rcases s with _ | ⟨b1, s⟩; · exact Or.inl ⟨by simp, rfl⟩
  rcases s with _ | ⟨b2, s⟩; · exact Or.inl ⟨by simp, rfl⟩
  rcases s with _ | ⟨b3, s⟩; · exact Or.inl ⟨by simp, rfl⟩
  rcases s with _ | ⟨b4, s⟩; · exact Or.inl ⟨by simp, rfl⟩
  rcases s with _ | ⟨b5, s⟩; · exact Or.inl ⟨by simp, rfl⟩
  rcases s with _ | ⟨b6, s⟩; · exact Or.inl ⟨by simp, rfl⟩
  rcases s with _ | ⟨b7, s⟩; · exact Or.inl ⟨by simp, rfl⟩
  rcases s with _ | ⟨b8, s⟩; · exact Or.inl ⟨by simp, rfl⟩
  rcases s with _ | ⟨b9, s⟩; · exact Or.inl ⟨by simp, rfl⟩
  rcases s with _ | ⟨b10, s⟩; · exact Or.inl ⟨by simp, rfl⟩
  rcases s with _ | ⟨b11, s⟩; · exact Or.inl ⟨by simp, rfl⟩
  rcases s with _ | ⟨b12, s⟩; · exact Or.inl ⟨by simp, rfl⟩
  rcases s with _ | ⟨b13, s⟩; · exact Or.inl ⟨by simp, rfl⟩
  rcases s with _ | ⟨b14, s⟩; · exact Or.inl ⟨by simp, rfl⟩
  rcases s with _ | ⟨b15, s⟩; · exact Or.inl ⟨by simp, rfl⟩
  rcases s with _ | ⟨b16, s⟩; · exact Or.inl ⟨by simp, rfl⟩
  rcases s with _ | ⟨b17, s⟩; · exact Or.inl ⟨by simp, rfl⟩
  rcases s with _ | ⟨b18, s⟩; · exact Or.inl ⟨by simp, rfl⟩
  rcases s with _ | ⟨b19, s⟩; · exact Or.inl ⟨by simp, rfl⟩
  exact Or.inr ⟨b0, b1, b2, b3, b4, b5, b6, b7, b8, b9, b10, b11, b12, b13, b14,
    b15, b16, b17, b18, b19, s, rfl⟩

/-- `ServeDIAM` always reduces to `serve` at the resolved key. -/
lemma serveDIAM_eq_serve (mux : ServeMux) (dict : Nat → Nat → Option String)
    (c : Nat) (m : Message) :
    mux.serveDIAM dict c m = mux.serve (resolvedKey dict m) c m := by
  unfold ServeMux.serveDIAM resolvedKey
  cases hd : dict m.header.applicationID m.header.commandCode <;> simp

/-! ## Claim theorems -/

/-- C6: the error mailbox holds at most one report and sends never
block: a send into the empty slot stores the report, a send into an
occupied slot drops the new report, and two consecutive sends with no
intervening consumption leave exactly the first report observable. -/
theorem mailbox_single_slot (r r0 r1 r2 : ErrorReport) :
    ServeMux.sendError none r = some r ∧
    ServeMux.sendError (some r0) r = some r0 ∧
    ServeMux.sendError (ServeMux.sendError none r1) r2 = some r1 :=
  ⟨rfl, rfl, rfl⟩

/-- C7: `CommandName` on a header whose command code misses the static
table returns exactly the sentinel `{"Unknown", "?"}`, with no suffix
appended, whatever the Request flag bit is. -/
theorem commandName_unknown_sentinel (hdr : Header)
    (hmiss : commandCodes.lookup hdr.commandCode = none) :
    hdr.commandName = ⟨"Unknown", "?"⟩ := by
  unfold Header.commandName
  rw [hmiss]

/-- C7 witness: code 0 is not in the table; the sentinel comes back with
the Request bit set. -/
theorem commandName_unknown_sentinel_witness :
    commandCodes.lookup (Header.commandCode ⟨1, (0, 0, 0), 128, (0, 0, 0), 0, 0, 0⟩) = none ∧
    Header.commandName ⟨1, (0, 0, 0), 128, (0, 0, 0), 0, 0, 0⟩ = ⟨"Unknown", "?"⟩ :=
  ⟨by decide, commandName_unknown_sentinel _ (by decide)⟩

/-- C8: for any 32-bit payload length, `SetMessageLength` makes
`MessageLength` read back `20 + L` truncated to 24 bits, and leaves
every other header field unchanged. -/
theorem setMessageLength_reads_back (hdr : Header) (L : Nat) (_hL : L < 2 ^ 32) :
    (hdr.setMessageLength L).messageLength = (20 + L) % 2 ^ 24 ∧
    (hdr.setMessageLength L).version = hdr.version ∧
    (hdr.setMessageLength L).commandFlags = hdr.commandFlags ∧
    (hdr.setMessageLength L).rawCommandCode = hdr.rawCommandCode ∧
    (hdr.setMessageLength L).applicationId = hdr.applicationId ∧
    (hdr.setMessageLength L).hopByHopId = hdr.hopByHopId ∧
    (hdr.setMessageLength L).endToEndId = hdr.endToEndId := by
  refine ⟨?_, rfl, rfl, rfl, rfl, rfl, rfl⟩
  simp only [Header.setMessageLength, Header.messageLength, uint24To32, uint32To24,
    headerSizeof]
  omega

/-- C8 witness: payload length 5 reads back as message length 25. -/
theorem setMessageLength_reads_back_witness :
    (5 : Nat) < 2 ^ 32 ∧
    ((Header.setMessageLength ⟨1, (0, 0, 0), 0, (0, 0, 0), 0, 0, 0⟩ 5).messageLength
        = (20 + 5) % 2 ^ 24 ∧
      (Header.setMessageLength ⟨1, (0, 0, 0), 0, (0, 0, 0), 0, 0, 0⟩ 5).version = 1 ∧
      (Header.setMessageLength ⟨1, (0, 0, 0), 0, (0, 0, 0), 0, 0, 0⟩ 5).commandFlags = 0 ∧
      (Header.setMessageLength ⟨1, (0, 0, 0), 0, (0, 0, 0), 0, 0, 0⟩ 5).rawCommandCode = (0, 0, 0) ∧
      (Header.setMessageLength ⟨1, (0, 0, 0), 0, (0, 0, 0), 0, 0, 0⟩ 5).applicationId = 0 ∧
      (Header.setMessageLength ⟨1, (0, 0, 0), 0, (0, 0, 0), 0, 0, 0⟩ 5).hopByHopId = 0 ∧
      (Header.setMessageLength ⟨1, (0, 0, 0), 0, (0, 0, 0), 0, 0, 0⟩ 5).endToEndId = 0) :=
  ⟨by norm_num, setMessageLength_reads_back ⟨1, (0, 0, 0), 0, (0, 0, 0), 0, 0, 0⟩ 5 (by norm_num)⟩

/-- C1: the header codec round-trips — encoding a header with valid
field values (version 1, byte-valued raw length and code groups, an
8-bit flags byte, 32-bit identifiers) into its 20-byte big-endian wire
form and decoding with `ReadHeader` recovers every field. -/
theorem header_roundTrip (h : Header)
    (hv : h.version = 1)
    (hm1 : h.rawMessageLength.1 < 256) (hm2 : h.rawMessageLength.2.1 < 256)
    (hm3 : h.rawMessageLength.2.2 < 256)
    (hf : h.commandFlags < 256)
    (hc1 : h.rawCommandCode.1 < 256) (hc2 : h.rawCommandCode.2.1 < 256)
    (hc3 : h.rawCommandCode.2.2 < 256)
    (ha : h.applicationId < 2 ^ 32) (hh : h.hopByHopId < 2 ^ 32)
    (he : h.endToEndId < 2 ^ 32) :
    readHeader (encodeHeader h) = .ok h := by
  obtain ⟨v, ⟨m1, m2, m3⟩, cf, ⟨c1, c2, c3⟩, app, hop, e2e⟩ := h
  simp only at hv hm1 hm2 hm3 hf hc1 hc2 hc3 ha hh he
  subst hv
  simp only [encodeHeader, byte32, List.cons_append, List.nil_append, readHeader]
  rw [if_neg (by simp)]
  simp only [Except.ok.injEq, Header.mk.injEq, Prod.mk.injEq, and_true, true_and]
  omega

/-- C1 witness: a concrete header with version 1 survives the
round-trip. -/
theorem header_roundTrip_witness :
    ((1 : Nat) = 1 ∧ (2 : Nat) < 256 ∧ (3 : Nat) < 256 ∧ (4 : Nat) < 256 ∧
      (128 : Nat) < 256 ∧ (1 : Nat) < 256 ∧ (1 : Nat) < 256 ∧ (4 : Nat) < 256 ∧
      (16777238 : Nat) < 2 ^ 32 ∧ (3735928559 : Nat) < 2 ^ 32 ∧ (305419896 : Nat) < 2 ^ 32) ∧
    readHeader (encodeHeader ⟨1, (2, 3, 4), 128, (1, 1, 4), 16777238, 3735928559, 305419896⟩)
      = .ok ⟨1, (2, 3, 4), 128, (1, 1, 4), 16777238, 3735928559, 305419896⟩ :=
  ⟨by norm_num,
    header_roundTrip ⟨1, (2, 3, 4), 128, (1, 1, 4), 16777238, 3735928559, 305419896⟩
      rfl (by norm_num) (by norm_num) (by norm_num) (by norm_num) (by norm_num)
      (by norm_num) (by norm_num) (by norm_num) (by norm_num) (by norm_num)⟩

/-- C2 counterexample: the one-byte stream `[2]` has first byte ≠ 1,
yet `ReadHeader` fails with the IO error from the short `binary.Read`,
not with a version-kind error — so "every stream whose first byte is
not 1 yields a version-kind error" is false as stated. -/
theorem readHeader_nonOne_cex :
    readHeader [2] = .error .ioError ∧ ReadErr.isVersion .ioError = false := by
  exact ⟨rfl, rfl⟩

/-- C2 amended: a stream whose first byte is not 1 never yields a
header; when the stream carries at least the 20 header bytes the error
is the version error naming that first byte (shorter streams fail with
the IO error instead). -/
theorem readHeader_nonOne_amended (s : List Nat) (hv : s.getD 0 0 ≠ 1) :
    (∀ hdr, readHeader s ≠ .ok hdr) ∧
    (20 ≤ s.length → readHeader s = .error (.versionError (s.getD 0 0))) := by
  rcases readHeader_cases s with ⟨hshort, herr⟩ | hsplit
  · exact ⟨fun hdr => by simp [herr], fun hlen => absurd hlen (by omega)⟩
  · obtain ⟨b0, b1, b2, b3, b4, b5, b6, b7, b8, b9, b10, b11, b12, b13, b14, b15,
      b16, b17, b18, b19, rest, rfl⟩ := hsplit
    simp only [List.getD_cons_zero] at hv
    constructor
    · intro hdr
      simp [readHeader, hv]
    · intro _
      simp [readHeader, hv]

/-- C2 witness: on a 20-byte stream starting with byte 2, the decode
fails with the version error carrying 2 and yields no header. -/
theorem readHeader_nonOne_amended_witness :
    List.getD [2, 0, 0, 0, 0, 0, 0, 0, 0, 0, 0, 0, 0, 0, 0, 0, 0, 0, 0, 0] 0 0 ≠ 1 ∧
    readHeader [2, 0, 0, 0, 0, 0, 0, 0, 0, 0, 0, 0, 0, 0, 0, 0, 0, 0, 0, 0]
      = .error (.versionError 2) :=
  ⟨by decide,
    (readHeader_nonOne_amended [2, 0, 0, 0, 0, 0, 0, 0, 0, 0, 0, 0, 0, 0, 0, 0, 0, 0, 0, 0]
      (by decide)).2 (by decide)⟩

/-- C3: with a handler registered under "CCR", a message whose
dictionary lookup resolves to short name "CC" and whose Request bit is
set is dispatched to that handler exactly once, nothing reaches the
error channel, and in general the lookup key is the short name with "R"
appended when the Request bit is set and "A" when it is clear. -/
theorem serveDIAM_dispatches_registered (mux : ServeMux)
    (dict : Nat → Nat → Option String) (c : Nat) (m : Message) (entry : MuxEntry)
    (hreg : mux.m.lookup "CCR" = some entry)
    (hdict : dict m.header.applicationID m.header.commandCode = some "CC")
    (hreq : m.header.commandFlags &&& RequestFlag = RequestFlag) :
    (mux.serveDIAM dict c m).invoked = [entry.h] ∧
    (mux.serveDIAM dict c m).submitted = [] ∧
    (mux.serveDIAM dict c m).slot = mux.e ∧
    (∀ (dict2 : Nat → Nat → Option String) (m2 : Message) (short : String),
      dict2 m2.header.applicationID m2.header.commandCode = some short →
      resolvedKey dict2 m2 =
        short ++ (if m2.header.commandFlags &&& RequestFlag = RequestFlag then "R" else "A")) := by
  have hkey : resolvedKey dict m = "CCR" := by
    unfold resolvedKey
    rw [hdict]
    simp [hreq]
  refine ⟨?_, ?_, ?_, ?_⟩
  · rw [serveDIAM_eq_serve, hkey]
    unfold ServeMux.serve
    rw [hreg]
  · rw [serveDIAM_eq_serve, hkey]
    unfold ServeMux.serve
    rw [hreg]
  · rw [serveDIAM_eq_serve, hkey]
    unfold ServeMux.serve
    rw [hreg]
  · intro dict2 m2 short hd2
    by_cases hflag : m2.header.commandFlags &&& RequestFlag = RequestFlag
    · simp [resolvedKey, hd2, hflag]
    · simp [resolvedKey, hd2, hflag]

/-- C3 witness: a mux with handler 42 under "CCR" and a dictionary
resolving (16777238, 272) to "CC" dispatches a Request-flagged message
to handler 42 and leaves the empty error slot empty. -/
theorem serveDIAM_dispatches_registered_witness :
    (ServeMux.mk [("CCR", ⟨42, "CCR"⟩)] none).m.lookup "CCR" = some ⟨42, "CCR"⟩ ∧
    (fun a c => if a = 16777238 ∧ c = 272 then some "CC" else none) 16777238 272 = some "CC" ∧
    (128 : Nat) &&& RequestFlag = RequestFlag ∧
    ((ServeMux.mk [("CCR", ⟨42, "CCR"⟩)] none).serveDIAM
        (fun a c => if a = 16777238 ∧ c = 272 then some "CC" else none)
        7 ⟨⟨16777238, 272, 128⟩, 0⟩).invoked = [42] :=
  ⟨by decide, by decide, by decide,
    (serveDIAM_dispatches_registered (ServeMux.mk [("CCR", ⟨42, "CCR"⟩)] none)
      (fun a c => if a = 16777238 ∧ c = 272 then some "CC" else none)
      7 ⟨⟨16777238, 272, 128⟩, 0⟩ ⟨42, "CCR"⟩ (by decide) (by decide) (by decide)).1⟩

/-- C4: when neither the resolved key nor "ALL" has a handler,
dispatching invokes no handler and submits exactly one ErrorReport
whose error is `errors.New "unhandled message"` and whose Conn and
Message fields are the dispatched connection and message. -/
theorem serveDIAM_unhandled_report (mux : ServeMux)
    (dict : Nat → Nat → Option String) (c : Nat) (m : Message)
    (hmiss : mux.m.lookup (resolvedKey dict m) = none)
    (_hall : mux.m.lookup "ALL" = none) :
    (mux.serveDIAM dict c m).invoked = [] ∧
    (mux.serveDIAM dict c m).submitted =
      [{ conn := c, message := some m, error := .errNew "unhandled message" }] := by
  rw [serveDIAM_eq_serve]
  unfold ServeMux.serve
  rw [hmiss]
  exact ⟨rfl, rfl⟩

/-- C4 witness: an empty mux with a failing dictionary lookup submits
exactly the "unhandled message" report for the connection and message. -/
theorem serveDIAM_unhandled_report_witness :
    (ServeMux.mk [] none).m.lookup
        (resolvedKey (fun _ _ => none) ⟨⟨9, 999, 128⟩, 5⟩) = none ∧
    (ServeMux.mk [] none).m.lookup "ALL" = none ∧
    ((ServeMux.mk [] none).serveDIAM (fun _ _ => none) 3 ⟨⟨9, 999, 128⟩, 5⟩).invoked = [] ∧
    ((ServeMux.mk [] none).serveDIAM (fun _ _ => none) 3 ⟨⟨9, 999, 128⟩, 5⟩).submitted =
      [{ conn := 3, message := some ⟨⟨9, 999, 128⟩, 5⟩, error := .errNew "unhandled message" }] := by
  refine ⟨by decide, by decide, ?_⟩
  exact serveDIAM_unhandled_report (ServeMux.mk [] none) (fun _ _ => none)
    3 ⟨⟨9, 999, 128⟩, 5⟩ (by decide) (by decide)

/-- C5 counterexample: a read failure with `io.ErrUnexpectedEOF` is not
a clean end-of-stream, and the handler here supports error reporting,
yet the loop body emits no report — contradicting "every non-clean-EOF
failure with a reporting handler emits exactly one ErrorReport". -/
theorem connServe_unexpectedEOF_cex :
    (connServeStep (Except.error GoError.unexpectedEOF) true 0).reports = [] ∧
    GoError.unexpectedEOF ≠ GoError.eof ∧
    (connServeStep (Except.error GoError.unexpectedEOF) true 0).socketClosed = true := by
  refine ⟨rfl, by decide, rfl⟩

/-- C5 amended: every read failure closes the socket and exits the
loop; a failure that is neither `io.EOF` nor `io.ErrUnexpectedEOF`,
with a handler implementing the error-reporting capability, emits
exactly one report carrying this connection, the nil message, and the
error; both `io.EOF` and `io.ErrUnexpectedEOF` are never reported. -/
theorem connServe_read_failure_amended :
    (∀ (e : GoError) (reporter : Bool) (cid : Nat),
      (connServeStep (Except.error e) reporter cid).socketClosed = true ∧
      (connServeStep (Except.error e) reporter cid).loopExits = true ∧
      (connServeStep (Except.error e) reporter cid).dispatched = []) ∧
    (∀ (e : GoError) (cid : Nat), e ≠ GoError.eof → e ≠ GoError.unexpectedEOF →
      (connServeStep (Except.error e) true cid).reports =
        [{ conn := cid, message := none, error := e }]) ∧
    (∀ (reporter : Bool) (cid : Nat),
      (connServeStep (Except.error GoError.eof) reporter cid).reports = [] ∧
      (connServeStep (Except.error GoError.unexpectedEOF) reporter cid).reports = []) := by
  refine ⟨fun e reporter cid => ⟨rfl, rfl, rfl⟩, ?_, ?_⟩
  · intro e cid he hu
    simp [connServeStep, he, hu]
  · intro reporter cid
    constructor <;> simp [connServeStep]

/-- C5 witness: a network fault (`other 7`) with a reporting handler
yields exactly the one report naming connection 3, a nil message, and
the fault. -/
theorem connServe_read_failure_amended_witness :
    GoError.other 7 ≠ GoError.eof ∧ GoError.other 7 ≠ GoError.unexpectedEOF ∧
    (connServeStep (Except.error (GoError.other 7)) true 3).reports =
      [{ conn := 3, message := none, error := GoError.other 7 }] :=
  ⟨by decide, by decide,
    connServe_read_failure_amended.2.1 (GoError.other 7) 3 (by decide) (by decide)⟩

/-- C9: registering a nil handler panics with "DIAM: nil handler" and
leaves the entry table exactly as it was — no prior registration is
removed or replaced. -/
theorem handle_nil_panics (mux : ServeMux) (cmd : String) :
    (mux.handle cmd none).1 = mux ∧
    (mux.handle cmd none).1.m = mux.m ∧
    (mux.handle cmd none).2 = some "DIAM: nil handler" :=
  ⟨rfl, rfl, rfl⟩

/-- C10: the connection write path never reports a partial count — on
any write or flush error the returned count is 0, so a non-zero count
comes only with a nil error. -/
theorem responseWrite_no_partial_count (wr : Nat × Option GoError) (fr : Option GoError) :
    (responseWrite wr fr).1 = 0 ∨ (responseWrite wr fr).2 = none := by
  rcases wr with ⟨n, _ | e⟩ <;> rcases fr with _ | f <;> simp [responseWrite]

end Diam
